import Mathlib

/-
Shallow embedding of `src/beet/toolchain/pipeline.py`: the plugin execution
engine (`GenericPipeline`, `Task`, `PluginError`, `PluginImportError`).

Modelling conventions:
- The shared mutable context object is threaded explicitly: every operation
  that may run plugin code takes a context of type `C` and returns the
  updated context.
- Python exceptions are modelled by the inductive type `Exc`.  `raise`
  becomes an `Except Exc` result (or a `Sum.inl` component where a plugin
  body raises).
- Python generators are modelled first-order by `Gen`: a generator frozen at
  a suspension point is a function from the optionally injected exception and
  the current context to the updated context together with the outcome
  (raise, return, or yield with a continuation generator).
- `run`'s drain loop can diverge in Python (a generator may yield forever),
  so it is given explicit fuel and returns `none` on fuel exhaustion.
-/

namespace Beet

/-- Exceptions of the model.  `stopIteration` is Python's normal-exhaustion
signal; `bubble` is a plain `BubbleException` (the escape-hatch tag);
`pluginError` and `pluginImportError` are the two wrapper error kinds of the
pipeline, each retaining its cause; `other` is any ordinary exception. -/
inductive Exc : Type where
  | stopIteration : Exc
  | bubble (tag : Nat) : Exc
  | pluginError (plugin : Nat) (cause : Exc) : Exc
  | pluginImportError (spec : String) (cause : Exc) : Exc
  | other (tag : Nat) : Exc
deriving DecidableEq

/-- Modelled from the spec: the escape-hatch error marker (`BubbleException`
in `beet.core.error`, which is not under `src/`).  Spec section 7 requires
that the two wrapper kinds, once created, "propagate unchanged through every
subsequent layer", so `WrappedException` (the base of `PluginError` and
`PluginImportError`) carries the escape-hatch tag as well. -/
def Exc.isBubble : Exc → Bool
  | .bubble _ => true
  | .pluginError _ _ => true
  | .pluginImportError _ _ => true
  | .stopIteration => false
  | .other _ => false

/-- Modelled from the spec: `pop_traceback` (in `beet.core.utils`, not under
`src/`) strips stack-trace framing internal to the call for readability; the
exception value itself is unchanged. -/
def pop_traceback (e : Exc) : Exc := e

/-- A Python generator frozen at a suspension point.  Stepping it with
`none` models `next(g)`; stepping it with `some e` models `g.throw(e)`.
The step returns the updated context together with either `Sum.inl e'`
(the generator raised `e'`), `Sum.inr none` (the generator returned, which
`next`/`throw` report as `StopIteration`), or `Sum.inr (some k)` (the
generator yielded and is now frozen at the continuation `k`). -/
inductive Gen (C : Type) : Type where
  | mk (step : Option Exc → C → C × (Exc ⊕ Option (Gen C)))

/-- Apply one step to a generator (see `Gen`). -/
def Gen.step {C : Type} : Gen C → Option Exc → C → C × (Exc ⊕ Option (Gen C))
  | .mk f => f

/-- Possible results of invoking a plugin body that returns: a non-iterable
value, a non-generator iterable holding `n` items, or a generator object. -/
inductive PluginResult (C : Type) : Type where
  | value : PluginResult C
  | iterable (n : Nat) : PluginResult C
  | generator (g : Gen C) : PluginResult C

/-- A plugin: a callable identified for dedup purposes by `id` (Python set
membership on function objects is reference identity).  `call c` returns the
updated context and either `Sum.inl e` (the invocation raised `e`) or
`Sum.inr r` (the invocation returned result `r`). -/
structure GenericPlugin (C : Type) : Type where
  id : Nat
  call : C → C × (Exc ⊕ PluginResult C)

/-- The iterator stored by a task: `iter(result)` of the plugin invocation
result.  A non-generator iterable gives a plain iterator over its remaining
`n` items (supports `next` but not `throw`); a generator gives the generator
itself. -/
inductive Cursor (C : Type) : Type where
  | seq (n : Nat) : Cursor C
  | gen (g : Gen C) : Cursor C

/-- Wraps the plugin invocation result as an iterator, mirroring
`iter(cast(Iterable[Any], result) if isinstance(result, Iterable) else [])`
in `Task.advance`. -/
def mkCursor {C : Type} : PluginResult C → Cursor C
  | .value => .seq 0
  | .iterable n => .seq n
  | .generator g => .gen g

/-- A unit of work generated by the pipeline (`Task` in the source). -/
structure Task (C : Type) : Type where
  plugin : GenericPlugin C
  iterator : Option (Cursor C)

/-- Outcome of driving an iterator one step. -/
inductive StepOut (C : Type) : Type where
  | yielded (k : Cursor C) : StepOut C
  | stopped : StepOut C
  | raised (e : Exc) : StepOut C

/-- Drive the stored iterator one step, mirroring lines 88-93 of the source:
with no exception, `next(self.iterator)`; with an exception and a generator
iterator, `self.iterator.throw(exception)`; with an exception and a
non-generator iterator, `raise exception`. -/
def Cursor.drive {C : Type} : Cursor C → Option Exc → C → C × StepOut C
  | .seq (n + 1), none, c => (c, .yielded (.seq n))
  | .seq 0, none, c => (c, .stopped)
  | .seq _, some e, c => (c, .raised e)
  | .gen g, exc, c =>
    match g.step exc c with
    | (c2, Sum.inl e2) => (c2, .raised e2)
    | (c2, Sum.inr none) => (c2, .stopped)
    | (c2, Sum.inr (some k)) => (c2, .yielded (.gen k))

/-- Exception handling of `Task.advance` (lines 94-99 of the source):
`except StopIteration: return None`, `except BubbleException: raise`,
`except Exception as exc: raise PluginError(self.plugin) from
pop_traceback(exc)`. -/
def handleRaised {C : Type} (plugin : GenericPlugin C) (e : Exc) :
    Except Exc (Option (Task C)) :=
  if e = .stopIteration then .ok none
  else if e.isBubble then .error e
  else .error (.pluginError plugin.id (pop_traceback e))

/-- Turn an iterator step outcome into the result of `advance`: a yield
returns the task (with its updated iterator), exhaustion returns `none`, and
a raised exception goes through the handler chain. -/
def driveTask {C : Type} (plugin : GenericPlugin C) (it : Cursor C)
    (exception : Option Exc) (c : C) : C × Except Exc (Option (Task C)) :=
  match Cursor.drive it exception c with
  | (c2, .yielded k) => (c2, .ok (some ⟨plugin, some k⟩))
  | (c2, .stopped) => (c2, .ok none)
  | (c2, .raised e) => (c2, handleRaised plugin e)

/-- Make progress on the task and return it unless no more work is necessary
(`Task.advance` in the source).  On the first step the plugin is invoked and
its result wrapped as the iterator; then the iterator is driven one step,
delivering `exception` if one is given. -/
def Task.advance {C : Type} (t : Task C) (ctx : C) (exception : Option Exc) :
    C × Except Exc (Option (Task C)) :=
  match t.iterator with
  | none =>
    match t.plugin.call ctx with
    | (c2, Sum.inl e) => (c2, handleRaised t.plugin e)
    | (c2, Sum.inr result) => driveTask t.plugin (mkCursor result) exception c2
  | some it => driveTask t.plugin it exception ctx

/-- The plugin execution engine (`GenericPipeline` in the source).  The
`lookup` field is modelled from the spec: it stands for the external lookup
collaborator `import_from_string` (in `beet.core.utils`, not under `src/`)
already applied to the configured `default_symbol` and `whitelist`. -/
structure GenericPipeline (C : Type) : Type where
  ctx : C
  lookup : String → Except Exc (GenericPlugin C)
  plugins : List Nat
  tasks : List (Task C)

/-- A plugin spec: either a direct callable or a textual dotted path
(`GenericPluginSpec` in the source). -/
inductive GenericPluginSpec (C : Type) : Type where
  | callable (p : GenericPlugin C) : GenericPluginSpec C
  | text (s : String) : GenericPluginSpec C

/-- Return the imported plugin if the argument is a dotted path
(`GenericPipeline.resolve` in the source): a direct callable is returned
unchanged; a failure of the lookup collaborator is re-raised unchanged when
escape-hatch-tagged and otherwise wrapped as `PluginImportError(spec)` with
the cause preserved. -/
def GenericPipeline.resolve {C : Type} (p : GenericPipeline C)
    (spec : GenericPluginSpec C) : Except Exc (GenericPlugin C) :=
  match spec with
  | .callable pl => .ok pl
  | .text s =>
    match p.lookup s with
    | .ok pl => .ok pl
    | .error e =>
      if e.isBubble then .error e else .error (.pluginImportError s e)

/-- Execute the specified plugins (`GenericPipeline.require` in the source).
For each spec in order: resolve it (a failure stops the loop and is
reported); skip it if the resolved plugin identity was already activated;
otherwise record the identity, step a fresh task once, and append the task
to the stack when it reports remaining work.  A raise from the step stops
the loop with the state updated so far. -/
def GenericPipeline.require {C : Type} :
    GenericPipeline C → List (GenericPluginSpec C) →
      GenericPipeline C × Option Exc
  | p, [] => (p, none)
  | p, spec :: rest =>
    match p.resolve spec with
    | .error e => (p, some e)
    | .ok plugin =>
      if p.plugins.contains plugin.id then
        GenericPipeline.require p rest
      else
        let p1 : GenericPipeline C := { p with plugins := p.plugins ++ [plugin.id] }
        match Task.advance ⟨plugin, none⟩ p1.ctx none with
        | (c2, .error e) => ({ p1 with ctx := c2 }, some e)
        | (c2, .ok none) => GenericPipeline.require { p1 with ctx := c2 } rest
        | (c2, .ok (some t)) =>
          GenericPipeline.require { p1 with ctx := c2, tasks := p1.tasks ++ [t] } rest

/-- Drain loop of `GenericPipeline.run`, on the task stack written top-first
(the source keeps the stack as a list whose last element is the top: its
`pop()` removes the last element and its `append` pushes there; the reversal
happens once in `run`).  While the stack is non-empty: pop the top task and
advance it, delivering the current exception; a raise replaces the
exception, a normal step clears it, and a task reporting remaining work is
pushed back.  `fuel` bounds the number of iterations; `none` means the loop
was still running when fuel ran out. -/
def drain {C : Type} : Nat → C → List (Task C) → Option Exc →
    Option (C × Option Exc)
  | _, c, [], exception => some (c, exception)
  | 0, _, _ :: _, _ => none
  | Nat.succ fuel, c, t :: ts, exception =>
    match Task.advance t c exception with
    | (c2, .error e) => drain fuel c2 ts (some e)
    | (c2, .ok none) => drain fuel c2 ts none
    | (c2, .ok (some t2)) => drain fuel c2 (t2 :: ts) none

/-- Run the specified plugins (`GenericPipeline.run` in the source): require
all the specs, catching any raise into the initial pending exception, then
drain the task stack; the result pairs the final pipeline state with the
pending exception left after draining (`some e` means `run` raises `e` to
its caller, `none` means it returns normally).  The outer `none` is fuel
exhaustion of the drain loop. -/
def GenericPipeline.run {C : Type} (p : GenericPipeline C)
    (specs : List (GenericPluginSpec C)) (fuel : Nat) :
    Option (GenericPipeline C × Option Exc) :=
  match GenericPipeline.require p specs with
  | (p1, exception) =>
    match drain fuel p1.ctx p1.tasks.reverse exception with
    | none => none
    | some (c2, exc) => some ({ p1 with ctx := c2, tasks := [] }, exc)

/-- Generator frozen after its only yield: resumed normally it applies the
post-suspension phase `b` and returns; thrown into, it re-raises the
injected exception (no handler around the yield). -/
def resumeGen {C : Type} (b : C → C) : Gen C :=
  .mk fun exc c =>
    match exc with
    | none => (b c, Sum.inr none)
    | some e => (c, Sum.inl e)

/-- Plugin with identity `i`, a pre-suspension phase `a`, one suspension
point, and a post-suspension phase `b`: its body is a generator that runs
`a`, yields once, then runs `b` and returns. -/
def suspendingPlugin {C : Type} (i : Nat) (a b : C → C) : GenericPlugin C :=
  { id := i
    call := fun c =>
      (c, Sum.inr (.generator (.mk fun exc c0 =>
        match exc with
        | none => (a c0, Sum.inr (some (resumeGen b)))
        | some e => (c0, Sum.inl e)))) }

/-- Plugin with identity `i` that applies `f` to the context and returns a
non-iterable value (a plain function plugin that never suspends). -/
def simplePlugin {C : Type} (i : Nat) (f : C → C) : GenericPlugin C :=
  { id := i, call := fun c => (f c, Sum.inr .value) }

/-- Lookup collaborator that fails on every dotted path. -/
def noLookup {C : Type} : String → Except Exc (GenericPlugin C) :=
  fun _ => .error (.other 0)

/-- Plugin A of the end-to-end example: appends "A-start" to the log,
suspends, then appends "A-end". -/
def pluginA : GenericPlugin (List String) :=
  suspendingPlugin 0 (fun c => c ++ ["A-start"]) (fun c => c ++ ["A-end"])

/-- Plugin B of the end-to-end example: appends "B" and returns
immediately (its result is not a lazy sequence). -/
def pluginB : GenericPlugin (List String) :=
  { id := 1, call := fun c => (c ++ ["B"], Sum.inr .value) }

/-- C1: for every two plugins P1 and P2 that each run a pre-suspension
phase, suspend once, and run a post-suspension phase, `run [P1, P2]` on a
fresh engine executes the phases in the order P1.A, P2.A, P2.B, P1.B
(activation in argument order, resumption LIFO) and returns normally; in
particular, with plugin A appending "A-start", suspending, then appending
"A-end", and plugin B appending "B" and returning, `run [A, B]` leaves the
log equal to ["A-start", "B", "A-end"]. -/
theorem run_lifo_ordering :
    (∀ (C : Type) (a1 b1 a2 b2 : C → C) (c0 : C)
      (lk : String → Except Exc (GenericPlugin C)),
      GenericPipeline.run ⟨c0, lk, [], []⟩
        [.callable (suspendingPlugin 0 a1 b1), .callable (suspendingPlugin 1 a2 b2)] 10
      = some (⟨b1 (b2 (a2 (a1 c0))), lk, [0, 1], []⟩, none)) ∧
    GenericPipeline.run ⟨[], noLookup, [], []⟩
        [.callable pluginA, .callable pluginB] 10
      = some (⟨["A-start", "B", "A-end"], noLookup, [0, 1], []⟩, none) :=
  ⟨fun _ _ _ _ _ _ _ => rfl, rfl⟩

/-- C2: no plugin identity is ever invoked more than once by the same
engine instance.  First conjunct: whenever a spec resolves to a plugin
whose identity is already in the activated set, `require` treats it as a
no-op (the body is not invoked, no state changes) and moves on to the rest.
Second conjunct: requiring the same counting plugin three times — twice
directly and once through a textual reference resolving to the same
callable — increments the counter context exactly once. -/
theorem require_idempotent_activation :
    (∀ (C : Type) (p : GenericPipeline C) (spec : GenericPluginSpec C)
      (pl : GenericPlugin C) (rest : List (GenericPluginSpec C)),
      p.resolve spec = .ok pl → p.plugins.contains pl.id = true →
      GenericPipeline.require p (spec :: rest) = GenericPipeline.require p rest) ∧
    GenericPipeline.require
      ⟨0, fun _ => .ok (simplePlugin 3 (fun c => c + 1)), [], []⟩
      [.callable (simplePlugin 3 (fun c => c + 1)),
       .callable (simplePlugin 3 (fun c => c + 1)),
       .text "dup"]
    = (⟨1, fun _ => .ok (simplePlugin 3 (fun c => c + 1)), [3], []⟩, none) := by
  constructor
  · intro C p spec pl rest hres hmem
    simp only [GenericPipeline.require, hres, hmem, if_true]
  · rfl

/-- Witness for C2 at a concrete already-activated plugin. -/
theorem require_idempotent_activation_witness :
    GenericPipeline.require (⟨0, noLookup, [3], []⟩ : GenericPipeline Nat)
      [.callable (simplePlugin 3 (fun c => c + 1))]
    = GenericPipeline.require (⟨0, noLookup, [3], []⟩ : GenericPipeline Nat) [] :=
  require_idempotent_activation.1 Nat ⟨0, noLookup, [3], []⟩
    (.callable (simplePlugin 3 (fun c => c + 1))) (simplePlugin 3 (fun c => c + 1)) [] rfl rfl

/-- Generator that finishes cleanly on any step, absorbing any injected
exception without re-raising it and leaving the context unchanged. -/
def absorbGen {C : Type} : Gen C := .mk fun _ c => (c, Sum.inr none)

/-- Draining a stack made only of absorbing tasks with no pending exception
returns normally with the context unchanged. -/
lemma drain_absorb_none {C : Type} (ps : List (GenericPlugin C)) (c : C) :
    drain (ps.length + 1) c
      (ps.map (fun q => (⟨q, some (.gen absorbGen)⟩ : Task C))) none
    = some (c, none) := by
  induction ps with
  | nil => rfl
  | cons q tl ih =>
    simpa [drain, Task.advance, driveTask, Cursor.drive, Gen.step, absorbGen] using ih

/-- C3: error threading through the drain loop.  Conjunct 1: once the stack
is empty the loop ends with the pending exception still set (run raises it)
or clear (run returns normally).  Conjunct 2: a step that raises makes the
raised error the new pending error, replacing any previous one, and it is
delivered to the next popped task.  Conjunct 3: a step that does not raise
clears the pending error (and pushes the task back exactly when it reported
remaining work).  Conjunct 4: if every remaining suspended task absorbs an
injected error, the drain returns cleanly with no error. -/
theorem run_error_threading :
    (∀ (C : Type) (c : C) (exc : Option Exc) (fuel : Nat),
      drain fuel c [] exc = some (c, exc)) ∧
    (∀ (C : Type) (fuel : Nat) (c c2 : C) (t : Task C) (ts : List (Task C))
      (exc : Option Exc) (e : Exc),
      Task.advance t c exc = (c2, .error e) →
      drain (fuel + 1) c (t :: ts) exc = drain fuel c2 ts (some e)) ∧
    (∀ (C : Type) (fuel : Nat) (c c2 : C) (t : Task C) (ts : List (Task C))
      (exc : Option Exc) (r : Option (Task C)),
      Task.advance t c exc = (c2, .ok r) →
      drain (fuel + 1) c (t :: ts) exc
      = drain fuel c2 (r.elim ts (fun t2 => t2 :: ts)) none) ∧
    (∀ (C : Type) (pl : GenericPlugin C) (ps : List (GenericPlugin C)) (c : C) (e : Exc),
      drain (ps.length + 2) c
        ((pl :: ps).map (fun q => (⟨q, some (.gen absorbGen)⟩ : Task C))) (some e)
      = some (c, none)) := by
  refine ⟨?_, ?_, ?_, ?_⟩
  · intro C c exc fuel
    cases fuel <;> rfl
  · intro C fuel c c2 t ts exc e h
    simp only [drain, h]
  · intro C fuel c c2 t ts exc r h
    cases r <;> simp only [drain, h, Option.elim]
  · intro C pl ps c e
    have h1 : Task.advance (⟨pl, some (.gen absorbGen)⟩ : Task C) c (some e)
        = (c, .ok none) := rfl
    have h2 : drain (ps.length + 2) c
        ((pl :: ps).map (fun q => (⟨q, some (.gen absorbGen)⟩ : Task C))) (some e)
        = drain (ps.length + 1) c
            (ps.map (fun q => (⟨q, some (.gen absorbGen)⟩ : Task C))) none := by
      simp only [List.map_cons, drain, h1]
    exact h2.trans (drain_absorb_none ps c)

/-- Witness for C3 at a concrete raising step and a concrete clean step. -/
theorem run_error_threading_witness :
    drain 1 (0 : Nat) [⟨simplePlugin 5 id, some (.seq 0)⟩] (some (.other 1))
      = drain 0 (0 : Nat) [] (some (.pluginError 5 (.other 1))) ∧
    drain 1 (0 : Nat) [⟨simplePlugin 5 id, some (.seq 0)⟩] none
      = drain 0 (0 : Nat) (Option.elim none ([] : List (Task Nat)) (fun t2 => t2 :: [])) none :=
  ⟨run_error_threading.2.1 Nat 0 0 0 ⟨simplePlugin 5 id, some (.seq 0)⟩ [] (some (.other 1))
      (.pluginError 5 (.other 1)) rfl,
   run_error_threading.2.2.1 Nat 0 0 0 ⟨simplePlugin 5 id, some (.seq 0)⟩ [] none none rfl⟩

/-- Plugin with identity `i` whose body suspends once and raises `e` when
resumed (regardless of whether an exception was injected). -/
def suspendThenRaisePlugin {C : Type} (i : Nat) (e : Exc) : GenericPlugin C :=
  { id := i
    call := fun c =>
      (c, Sum.inr (.generator (.mk fun _ c0 =>
        (c0, Sum.inr (some (.mk fun _ c1 => (c1, Sum.inl e))))))) }

/-- C4: for every plugin and every error raised during a task step other
than normal exhaustion, the step raises a `PluginError` identifying the
offending plugin with the original error as cause when the error is not
escape-hatch-tagged, and re-raises the error unchanged when it is.
Conjunct 1 covers an error raised by the stored generator (on `next` or
`throw`), conjunct 2 an error raised by the plugin invocation itself.
Conjuncts 3 and 4 show an escape-hatch error raised inside a plugin —
during activation or after resumption — reaching the caller of `run`
unwrapped. -/
theorem pluginError_wrapping :
    (∀ (C : Type) (pl : GenericPlugin C) (g : Gen C) (exc : Option Exc) (c c2 : C) (e : Exc),
      g.step exc c = (c2, Sum.inl e) → e ≠ .stopIteration →
      Task.advance ⟨pl, some (.gen g)⟩ c exc
      = (c2, if e.isBubble then Except.error e
             else Except.error (Exc.pluginError pl.id (pop_traceback e)))) ∧
    (∀ (C : Type) (pl : GenericPlugin C) (c c2 : C) (e : Exc) (exc : Option Exc),
      pl.call c = (c2, Sum.inl e) → e ≠ .stopIteration →
      Task.advance ⟨pl, none⟩ c exc
      = (c2, if e.isBubble then Except.error e
             else Except.error (Exc.pluginError pl.id (pop_traceback e)))) ∧
    (∀ (C : Type) (i tag : Nat) (f : C → C) (c0 : C)
      (lk : String → Except Exc (GenericPlugin C)) (fuel : Nat),
      GenericPipeline.run ⟨c0, lk, [], []⟩
        [.callable ⟨i, fun c => (f c, Sum.inl (.bubble tag))⟩] fuel
      = some (⟨f c0, lk, [i], []⟩, some (.bubble tag))) ∧
    (∀ (C : Type) (i tag : Nat) (c0 : C)
      (lk : String → Except Exc (GenericPlugin C)),
      GenericPipeline.run (C := C) ⟨c0, lk, [], []⟩
        [.callable (suspendThenRaisePlugin i (.bubble tag))] 10
      = some (⟨c0, lk, [i], []⟩, some (.bubble tag))) := by
  refine ⟨?_, ?_, ?_, ?_⟩
  · intro C pl g exc c c2 e hstep hne
    simp only [Task.advance, driveTask, Cursor.drive, hstep, handleRaised, if_neg hne]
  · intro C pl c c2 e exc hcall hne
    simp only [Task.advance, hcall, handleRaised, if_neg hne]
  · intro C i tag f c0 lk fuel
    cases fuel <;> rfl
  · intro C i tag c0 lk
    rfl

/-- Witness for C4: a generator raising an ordinary error gets wrapped, a
plugin invocation raising an escape-hatch error does not. -/
theorem pluginError_wrapping_witness :
    Task.advance (⟨simplePlugin 5 id, some (.gen (.mk fun _ c => (c, Sum.inl (.other 2))))⟩ : Task Nat) 0 none
      = (0, if (Exc.other 2).isBubble then Except.error (.other 2)
            else Except.error (Exc.pluginError 5 (pop_traceback (.other 2)))) ∧
    Task.advance (⟨⟨6, fun c => (c, Sum.inl (.bubble 4))⟩, none⟩ : Task Nat) 0 none
      = (0, if (Exc.bubble 4).isBubble then Except.error (.bubble 4)
            else Except.error (Exc.pluginError 6 (pop_traceback (.bubble 4)))) :=
  ⟨pluginError_wrapping.1 Nat (simplePlugin 5 id)
      (.mk fun _ c => (c, Sum.inl (.other 2))) none 0 0 (.other 2) rfl (by decide),
   pluginError_wrapping.2.1 Nat ⟨6, fun c => (c, Sum.inl (.bubble 4))⟩ 0 0 (.bubble 4) none
      rfl (by decide)⟩

/-- C5: for every plugin whose invocation result is not itself a lazy
sequence, the cursor is a sequence that yields nothing (conjunct 1), one
step suffices: `advance` reports no remaining work (conjunct 2), and
`require` activates such a plugin without pushing any entry onto the task
stack (conjunct 3: the tasks list is passed through unchanged). -/
theorem non_iterable_plugin_single_step :
    (∀ (C : Type), mkCursor (C := C) .value = .seq 0) ∧
    (∀ (C : Type) (pl : GenericPlugin C) (c c2 : C),
      pl.call c = (c2, Sum.inr .value) →
      Task.advance ⟨pl, none⟩ c none = (c2, .ok none)) ∧
    (∀ (C : Type) (p : GenericPipeline C) (pl : GenericPlugin C) (c2 : C)
      (rest : List (GenericPluginSpec C)),
      pl.call p.ctx = (c2, Sum.inr .value) → p.plugins.contains pl.id = false →
      GenericPipeline.require p (.callable pl :: rest)
      = GenericPipeline.require
          { p with ctx := c2, plugins := p.plugins ++ [pl.id] } rest) := by
  refine ⟨fun C => rfl, ?_, ?_⟩
  · intro C pl c c2 hcall
    simp only [Task.advance, hcall, driveTask, mkCursor, Cursor.drive]
  · intro C p pl c2 rest hcall hmem
    simp only [GenericPipeline.require, GenericPipeline.resolve, hmem, Bool.false_eq_true,
      if_false, Task.advance, hcall, driveTask, mkCursor, Cursor.drive]

/-- Witness for C5 at a concrete non-generator plugin. -/
theorem non_iterable_plugin_single_step_witness :
    Task.advance (⟨simplePlugin 9 (fun c => c + 7), none⟩ : Task Nat) 1 none = (8, .ok none) ∧
    GenericPipeline.require (⟨1, noLookup, [2], []⟩ : GenericPipeline Nat)
        [.callable (simplePlugin 9 (fun c => c + 7))]
      = GenericPipeline.require (⟨8, noLookup, [2, 9], []⟩ : GenericPipeline Nat) [] :=
  ⟨non_iterable_plugin_single_step.2.1 Nat (simplePlugin 9 (fun c => c + 7)) 1 8 rfl,
   non_iterable_plugin_single_step.2.2 Nat ⟨1, noLookup, [2], []⟩
      (simplePlugin 9 (fun c => c + 7)) 8 [] rfl rfl⟩

/-- C10: a plugin invocation that raises the normal-exhaustion error kind
itself is treated as clean completion — `advance` reports no remaining work
and wraps nothing (conjunct 1) — and so is the exhaustion of a non-generator
cursor (conjunct 2). -/
theorem stopIteration_clean_completion :
    (∀ (C : Type) (pl : GenericPlugin C) (c c2 : C) (exc : Option Exc),
      pl.call c = (c2, Sum.inl .stopIteration) →
      Task.advance ⟨pl, none⟩ c exc = (c2, .ok none)) ∧
    (∀ (C : Type) (pl : GenericPlugin C) (c : C),
      Task.advance ⟨pl, some (.seq 0)⟩ c none = (c, .ok none)) := by
  refine ⟨?_, fun C pl c => rfl⟩
  intro C pl c c2 exc hcall
  simp only [Task.advance, hcall, handleRaised, if_pos]

/-- Witness for C10 at a concrete plugin raising the exhaustion error. -/
theorem stopIteration_clean_completion_witness :
    Task.advance (⟨⟨4, fun c => (c + 2, Sum.inl .stopIteration)⟩, none⟩ : Task Nat) 1 none
      = (3, .ok none) :=
  stopIteration_clean_completion.1 Nat ⟨4, fun c => (c + 2, Sum.inl .stopIteration)⟩ 1 3 none rfl

/-- C6 counterexample: a task whose cursor is a non-generator iterator
(five items remaining), stepped with the pending ordinary error `other 1`,
does not re-raise that error unchanged: the raise goes through the step's
normal handler chain and comes out wrapped as
`pluginError 7 (other 1)`. -/
theorem seq_cursor_pending_error_wrapped :
    Task.advance (⟨simplePlugin 7 id, some (.seq 5)⟩ : Task Nat) 0 (some (.other 1))
      = (0, .error (.pluginError 7 (.other 1))) ∧
    Task.advance (⟨simplePlugin 7 id, some (.seq 5)⟩ : Task Nat) 0 (some (.other 1))
      ≠ (0, .error (.other 1)) :=
  ⟨rfl, fun h => Exc.noConfusion (Except.error.inj (congrArg Prod.snd h))⟩

/-- C6 as amended: for every task stepped with a pending error present, if
the cursor is a generator the error is injected at its suspension point — a
generator that handles it and yields keeps the task alive (conjunct 1), one
that handles it and returns completes the task cleanly (conjunct 2); if the
cursor does not support injection, the step raises the pending error
immediately without advancing the sequence, and that raise passes through
the step's normal error handling: normal exhaustion counts as clean
completion, escape-hatch errors propagate unchanged, and any other error is
wrapped as a Plugin Execution Error identifying the task's plugin
(conjunct 3). -/
theorem pending_error_delivery :
    (∀ (C : Type) (pl : GenericPlugin C)
      (σ : Option Exc → C → C × (Exc ⊕ Option (Gen C))) (c c2 : C) (e : Exc) (k : Gen C),
      σ (some e) c = (c2, Sum.inr (some k)) →
      Task.advance ⟨pl, some (.gen (.mk σ))⟩ c (some e)
      = (c2, .ok (some ⟨pl, some (.gen k)⟩))) ∧
    (∀ (C : Type) (pl : GenericPlugin C)
      (σ : Option Exc → C → C × (Exc ⊕ Option (Gen C))) (c c2 : C) (e : Exc),
      σ (some e) c = (c2, Sum.inr none) →
      Task.advance ⟨pl, some (.gen (.mk σ))⟩ c (some e) = (c2, .ok none)) ∧
    (∀ (C : Type) (pl : GenericPlugin C) (n : Nat) (c : C) (e : Exc),
      Task.advance ⟨pl, some (.seq n)⟩ c (some e)
      = (c, if e = .stopIteration then Except.ok none
            else if e.isBubble then Except.error e
            else Except.error (Exc.pluginError pl.id (pop_traceback e)))) := by
  refine ⟨?_, ?_, ?_⟩
  · intro C pl σ c c2 e k hstep
    simp only [Task.advance, driveTask, Cursor.drive, Gen.step, hstep]
  · intro C pl σ c c2 e hstep
    simp only [Task.advance, driveTask, Cursor.drive, Gen.step, hstep]
  · intro C pl n c e
    simp only [Task.advance, driveTask, Cursor.drive, handleRaised]

/-- Witness for C6 as amended: a generator that swallows the injected
escape-hatch error and a non-generator cursor receiving one. -/
theorem pending_error_delivery_witness :
    Task.advance (⟨simplePlugin 8 id,
        some (.gen (.mk fun exc c => (c, Sum.inr (some (resumeGen (fun x => x + exc.elim 0 (fun _ => 1)))))))⟩ : Task Nat)
        0 (some (.bubble 3))
      = (0, .ok (some ⟨simplePlugin 8 id,
          some (.gen (resumeGen (fun x => x + (some (Exc.bubble 3)).elim 0 (fun _ => 1))))⟩)) ∧
    Task.advance (⟨simplePlugin 7 id, some (.seq 5)⟩ : Task Nat) 1 (some (.bubble 3))
      = (1, if Exc.bubble 3 = .stopIteration then Except.ok none
            else if (Exc.bubble 3).isBubble then Except.error (.bubble 3)
            else Except.error (Exc.pluginError 7 (pop_traceback (.bubble 3)))) :=
  ⟨pending_error_delivery.1 Nat (simplePlugin 8 id)
      (fun exc c => (c, Sum.inr (some (resumeGen (fun x => x + exc.elim 0 (fun _ => 1))))))
      0 0 (.bubble 3) (resumeGen (fun x => x + (some (Exc.bubble 3)).elim 0 (fun _ => 1))) rfl,
   pending_error_delivery.2.2 Nat (simplePlugin 7 id) 5 1 (.bubble 3)⟩

/-- C7: `resolve` returns a direct callable unchanged (conjunct 1); a
failure of the lookup collaborator on a textual reference is wrapped as
`PluginImportError` naming the original spec with the cause preserved
(conjunct 2), except that escape-hatch-tagged failures propagate unchanged
(conjunct 3); and activating an unresolvable textual spec raises the
resolution error while leaving the whole engine state untouched — no
callable is ever invoked (conjunct 4). -/
theorem resolve_import_error :
    (∀ (C : Type) (p : GenericPipeline C) (pl : GenericPlugin C),
      p.resolve (.callable pl) = .ok pl) ∧
    (∀ (C : Type) (p : GenericPipeline C) (s : String) (e : Exc),
      p.lookup s = .error e → e.isBubble = false →
      p.resolve (.text s) = .error (.pluginImportError s e)) ∧
    (∀ (C : Type) (p : GenericPipeline C) (s : String) (e : Exc),
      p.lookup s = .error e → e.isBubble = true →
      p.resolve (.text s) = .error e) ∧
    (∀ (C : Type) (p : GenericPipeline C) (s : String) (e : Exc)
      (rest : List (GenericPluginSpec C)),
      p.lookup s = .error e → e.isBubble = false →
      GenericPipeline.require p (.text s :: rest) = (p, some (.pluginImportError s e))) := by
  refine ⟨fun C p pl => rfl, ?_, ?_, ?_⟩
  · intro C p s e hl hb
    simp only [GenericPipeline.resolve, hl, hb, Bool.false_eq_true, if_false]
  · intro C p s e hl hb
    simp only [GenericPipeline.resolve, hl, hb, if_true]
  · intro C p s e rest hl hb
    simp only [GenericPipeline.require, GenericPipeline.resolve, hl, hb,
      Bool.false_eq_true, if_false]

/-- Witness for C7 at a concrete failing lookup. -/
theorem resolve_import_error_witness :
    GenericPipeline.resolve (⟨0, noLookup, [], []⟩ : GenericPipeline Nat) (.text "bad.module:fn")
      = .error (.pluginImportError "bad.module:fn" (.other 0)) ∧
    GenericPipeline.require (⟨0, noLookup, [], []⟩ : GenericPipeline Nat) [.text "bad.module:fn"]
      = (⟨0, noLookup, [], []⟩, some (.pluginImportError "bad.module:fn" (.other 0))) :=
  ⟨resolve_import_error.2.1 Nat ⟨0, noLookup, [], []⟩ "bad.module:fn" (.other 0) rfl rfl,
   resolve_import_error.2.2.2 Nat ⟨0, noLookup, [], []⟩ "bad.module:fn" (.other 0) [] rfl rfl⟩

/-- C8: partial activation is visible and not rolled back.  Conjunct 1:
every plugin identity activated before a failure is still in the activated
set afterwards (the set only grows, whatever `require` does).  Conjunct 2: a
concrete run where the first plugin succeeds and the second raises — the
error propagates to the caller and the activated set reflects both the
successful plugin and the failing one, with the successful plugin's context
update retained. -/
theorem require_partial_activation :
    (∀ (C : Type) (specs : List (GenericPluginSpec C)) (p : GenericPipeline C) (x : Nat),
      x ∈ p.plugins → x ∈ (GenericPipeline.require p specs).1.plugins) ∧
    GenericPipeline.require (⟨0, noLookup, [], []⟩ : GenericPipeline Nat)
        [.callable (simplePlugin 1 (fun c => c + 1)),
         .callable ⟨2, fun c => (c, Sum.inl (.other 9))⟩]
      = (⟨1, noLookup, [1, 2], []⟩, some (.pluginError 2 (.other 9))) := by
  constructor
  · intro C specs
    induction specs with
    | nil => intro p x hx; exact hx
    | cons spec rest ih =>
      intro p x hx
      simp only [GenericPipeline.require]
      cases hres : p.resolve spec with
      | error e => exact hx
      | ok plugin =>
        by_cases hc : p.plugins.contains plugin.id
        · simp only [hc, if_true]
          exact ih p x hx
        · simp only [hc, if_false]
          rcases hadv : Task.advance (⟨plugin, none⟩ : Task C)
              ({ p with plugins := p.plugins ++ [plugin.id] } : GenericPipeline C).ctx none
            with ⟨c2, r⟩
          cases r with
          | error e => exact List.mem_append.mpr (Or.inl hx)
          | ok o =>
            cases o with
            | none => exact ih _ x (List.mem_append.mpr (Or.inl hx))
            | some t => exact ih _ x (List.mem_append.mpr (Or.inl hx))
  · rfl

/-- Witness for C8: an already-activated identity survives a later require. -/
theorem require_partial_activation_witness :
    7 ∈ (GenericPipeline.require (⟨0, noLookup, [7], []⟩ : GenericPipeline Nat)
        [.callable (simplePlugin 1 id)]).1.plugins :=
  require_partial_activation.1 Nat [.callable (simplePlugin 1 id)]
    ⟨0, noLookup, [7], []⟩ 7 (by decide)

/-- Plugin whose generator increments the counter context on each of its
two steps (yield once, then finish), so the final counter records how many
times the task was stepped. -/
def stepCountPlugin (i : Nat) : GenericPlugin Nat :=
  { id := i
    call := fun c =>
      (c, Sum.inr (.generator (.mk fun _ c0 =>
        (c0 + 1, Sum.inr (some (.mk fun _ c1 => (c1 + 1, Sum.inr none))))))) }

/-- C9: the pending stack holds only suspended tasks.  In the drain loop a
task whose step reports no remaining work is dropped — the loop continues
without it, so it is never stepped again (conjunct 1) — and a push happens
exactly when the step reports remaining work, pushing that same task
(conjunct 2); `require` likewise drops a task finishing on its first step
(conjunct 3) and appends exactly the task reporting remaining work
(conjunct 4).  Conjunct 5 runs a step-counting plugin end to end: its
generator is stepped exactly twice — once to suspend, once to finish — and
never again after finishing. -/
theorem finished_task_never_stepped :
    (∀ (C : Type) (fuel : Nat) (c c2 : C) (t : Task C) (ts : List (Task C))
      (exc : Option Exc),
      Task.advance t c exc = (c2, .ok none) →
      drain (fuel + 1) c (t :: ts) exc = drain fuel c2 ts none) ∧
    (∀ (C : Type) (fuel : Nat) (c c2 : C) (t t2 : Task C) (ts : List (Task C))
      (exc : Option Exc),
      Task.advance t c exc = (c2, .ok (some t2)) →
      drain (fuel + 1) c (t :: ts) exc = drain fuel c2 (t2 :: ts) none) ∧
    (∀ (C : Type) (p : GenericPipeline C) (pl : GenericPlugin C) (c2 : C)
      (rest : List (GenericPluginSpec C)),
      Task.advance ⟨pl, none⟩ p.ctx none = (c2, .ok none) →
      p.plugins.contains pl.id = false →
      GenericPipeline.require p (.callable pl :: rest)
      = GenericPipeline.require
          { p with ctx := c2, plugins := p.plugins ++ [pl.id] } rest) ∧
    (∀ (C : Type) (p : GenericPipeline C) (pl : GenericPlugin C) (c2 : C) (t : Task C)
      (rest : List (GenericPluginSpec C)),
      Task.advance ⟨pl, none⟩ p.ctx none = (c2, .ok (some t)) →
      p.plugins.contains pl.id = false →
      GenericPipeline.require p (.callable pl :: rest)
      = GenericPipeline.require
          { p with ctx := c2, plugins := p.plugins ++ [pl.id],
                   tasks := p.tasks ++ [t] } rest) ∧
    (∀ (i : Nat),
      GenericPipeline.run (⟨0, noLookup, [], []⟩ : GenericPipeline Nat)
        [.callable (stepCountPlugin i)] 10
      = some (⟨2, noLookup, [i], []⟩, none)) := by
  refine ⟨?_, ?_, ?_, ?_, fun i => rfl⟩
  · intro C fuel c c2 t ts exc h
    simp only [drain, h]
  · intro C fuel c c2 t t2 ts exc h
    simp only [drain, h]
  · intro C p pl c2 rest hadv hmem
    simp only [GenericPipeline.require, GenericPipeline.resolve, hmem, Bool.false_eq_true,
      if_false, hadv]
  · intro C p pl c2 t rest hadv hmem
    simp only [GenericPipeline.require, GenericPipeline.resolve, hmem, Bool.false_eq_true,
      if_false, hadv]

/-- Witness for C9 at a concrete finishing first step. -/
theorem finished_task_never_stepped_witness :
    drain 1 (3 : Nat) [⟨simplePlugin 9 (fun c => c + 7), none⟩] none
      = drain 0 (10 : Nat) [] none ∧
    GenericPipeline.require (⟨1, noLookup, [], []⟩ : GenericPipeline Nat)
        [.callable (simplePlugin 9 (fun c => c + 7))]
      = GenericPipeline.require (⟨8, noLookup, [9], []⟩ : GenericPipeline Nat) [] :=
  ⟨(finished_task_never_stepped.1 Nat 0 3 10 ⟨simplePlugin 9 (fun c => c + 7), none⟩ [] none rfl),
   (finished_task_never_stepped.2.2.1 Nat ⟨1, noLookup, [], []⟩
      (simplePlugin 9 (fun c => c + 7)) 8 [] rfl rfl)⟩

end Beet
